import Mathlib

/-!
# Verification of the FSM triage core of `genAi_receipt`

Shallow embedding of the maternal-health triage backend
(`src/backend/app/engine/{sanity,rules,fsm_orchestrator,circuit}.py`,
`src/backend/app/db/fsm_repository.py`, `src/backend/app/api/triage.py`)
and proofs of the spec claims about it.

Numeric conventions: Python ints become `Int`, Python floats (vital
readings, thresholds, confidences, timestamps) become `ℚ`.
Human-readable `clinical_notes` strings (interpolated f-strings) are not
modelled; every other field of the engine results is.
-/

namespace MomWatch

/-! ## Risk levels (`rules.py`, `class RiskLevel`) -/

inductive RiskLevel
  | LOW
  | MEDIUM
  | HIGH
  | CRITICAL
deriving DecidableEq, Repr

/-- Severity rank, ordering LOW < MEDIUM < HIGH < CRITICAL. -/
def RiskLevel.rank : RiskLevel → Nat
  | .LOW => 0
  | .MEDIUM => 1
  | .HIGH => 2
  | .CRITICAL => 3

/-! ## Raw payload and validation (`sanity.py`) -/

/-- A raw triage payload: the schema fields of `ClinicalVitals` plus any
extra keys present in the JSON object (honeypot names would live there). -/
structure RawPayload where
  extraKeys : List String
  age : Int
  systolic_bp : Int
  diastolic_bp : Int
  heart_rate : Int
  body_temp : ℚ
  blood_oxygen : ℚ
  blood_sugar : ℚ
  gestational_weeks : Int
  symptoms : Option String
deriving DecidableEq, Repr

/-- All keys of the payload dict. -/
def RawPayload.keys (p : RawPayload) : List String :=
  ["age", "systolic_bp", "diastolic_bp", "heart_rate", "body_temp",
   "blood_oxygen", "blood_sugar", "gestational_weeks", "symptoms"]
  ++ p.extraKeys

/-- Validated clinical vitals (`sanity.py`, `class ClinicalVitals`). -/
structure ClinicalVitals where
  age : Int
  systolic_bp : Int
  diastolic_bp : Int
  heart_rate : Int
  body_temp : ℚ
  blood_oxygen : ℚ
  blood_sugar : ℚ
  gestational_weeks : Int
  symptoms : Option String
deriving DecidableEq, Repr

/-- Validation failure kinds. Pydantic reports per-field range errors
(`Field(..., ge=..., le=...)`); the cross-field `model_validator` raises
the distinct `ADVERSARIAL_INPUT` error, and (being `mode='after'`) runs
only when every field-level check passed. -/
inductive ValidationError
  | rangeError (field : String)
  | adversarialInput (systolic diastolic : Int)
deriving DecidableEq, Repr

/-- Field range checks in declaration order, then the blood-pressure
cross-field validator; mirrors `ClinicalVitals` + `validate_vitals`.
Pydantic collects all failing fields; we report the first, which keeps
the observable error *kind* (range vs adversarial) exact: the
`mode='after'` validator never runs when any field check fails. -/
def validate_vitals (p : RawPayload) : Except ValidationError ClinicalVitals :=
  if ¬ (15 ≤ p.age ∧ p.age ≤ 60) then .error (.rangeError "age")
  else if ¬ (70 ≤ p.systolic_bp ∧ p.systolic_bp ≤ 230) then .error (.rangeError "systolic_bp")
  else if ¬ (40 ≤ p.diastolic_bp ∧ p.diastolic_bp ≤ 140) then .error (.rangeError "diastolic_bp")
  else if ¬ (45 ≤ p.heart_rate ∧ p.heart_rate ≤ 180) then .error (.rangeError "heart_rate")
  else if ¬ ((34 : ℚ) ≤ p.body_temp ∧ p.body_temp ≤ 42) then .error (.rangeError "body_temp")
  else if ¬ ((70 : ℚ) ≤ p.blood_oxygen ∧ p.blood_oxygen ≤ 100) then .error (.rangeError "blood_oxygen")
  else if ¬ ((1/2 : ℚ) ≤ p.blood_sugar ∧ p.blood_sugar ≤ 30) then .error (.rangeError "blood_sugar")
  else if ¬ (1 ≤ p.gestational_weeks ∧ p.gestational_weeks ≤ 42) then .error (.rangeError "gestational_weeks")
  else if (match p.symptoms with | some s => 500 < s.length | none => false : Bool) then .error (.rangeError "symptoms")
  else if p.systolic_bp ≤ p.diastolic_bp then .error (.adversarialInput p.systolic_bp p.diastolic_bp)
  else .ok ⟨p.age, p.systolic_bp, p.diastolic_bp, p.heart_rate, p.body_temp,
            p.blood_oxygen, p.blood_sugar, p.gestational_weeks, p.symptoms⟩

/-! ## Clinical rules engine (`rules.py`, `ClinicalRulesEngine.evaluate`) -/

/-- Mutable locals of `evaluate` between the successive rule blocks. -/
structure EvalSt where
  alerts : List String
  risk_level : RiskLevel
  bypass_ml : Bool
deriving DecidableEq, Repr

/-- Rule 1: hypertensive crisis — SBP ≥ 140 or DBP ≥ 90. -/
def rule1_hypertension (v : ClinicalVitals) (st : EvalSt) : EvalSt :=
  if 140 ≤ v.systolic_bp ∨ 90 ≤ v.diastolic_bp then
    { st with alerts := st.alerts ++ ["HYPERTENSIVE_CRISIS"],
              risk_level := .CRITICAL, bypass_ml := true }
  else st

/-- Rule 2: hypoxia — blood oxygen < 94. -/
def rule2_hypoxia (v : ClinicalVitals) (st : EvalSt) : EvalSt :=
  if v.blood_oxygen < 94 then
    { st with alerts := st.alerts ++ ["HYPOXIA"],
              risk_level := .CRITICAL, bypass_ml := true }
  else st

/-- Rule 3: severe tachycardia — heart rate > 120 (the source guards the
assignment with `if risk_level != CRITICAL`, kept verbatim). -/
def rule3_tachycardia (v : ClinicalVitals) (st : EvalSt) : EvalSt :=
  if 120 < v.heart_rate then
    { st with alerts := st.alerts ++ ["TACHYCARDIA"],
              risk_level := if st.risk_level ≠ .CRITICAL then .CRITICAL else st.risk_level,
              bypass_ml := true }
  else st

/-- Rule 4: severe hypoglycemia — blood sugar < 3.0. -/
def rule4_hypoglycemia (v : ClinicalVitals) (st : EvalSt) : EvalSt :=
  if v.blood_sugar < 3 then
    { st with alerts := st.alerts ++ ["HYPOGLYCEMIA"],
              risk_level := .CRITICAL, bypass_ml := true }
  else st

/-- Rule 5: severe hyperglycemia — blood sugar > 11.0. -/
def rule5_hyperglycemia (v : ClinicalVitals) (st : EvalSt) : EvalSt :=
  if 11 < v.blood_sugar then
    { st with alerts := st.alerts ++ ["HYPERGLYCEMIA"],
              risk_level := .CRITICAL, bypass_ml := true }
  else st

/-- Rule 6: hyperthermia — body temp > 38.5; raises LOW to HIGH, no bypass. -/
def rule6_hyperthermia (v : ClinicalVitals) (st : EvalSt) : EvalSt :=
  if (77/2 : ℚ) < v.body_temp then
    { st with alerts := st.alerts ++ ["HYPERTHERMIA"],
              risk_level := if st.risk_level = .LOW then .HIGH else st.risk_level }
  else st

/-- Rule 7: advanced maternal age — age ≥ 35; raises LOW to MEDIUM, no bypass. -/
def rule7_advanced_age (v : ClinicalVitals) (st : EvalSt) : EvalSt :=
  if 35 ≤ v.age then
    { st with alerts := st.alerts ++ ["ADVANCED_MATERNAL_AGE"],
              risk_level := if st.risk_level = .LOW then .MEDIUM else st.risk_level }
  else st

/-- Rule 8: post-term pregnancy — weeks > 40; raises LOW to MEDIUM, no bypass. -/
def rule8_post_term (v : ClinicalVitals) (st : EvalSt) : EvalSt :=
  if 40 < v.gestational_weeks then
    { st with alerts := st.alerts ++ ["POST_TERM_PREGNANCY"],
              risk_level := if st.risk_level = .LOW then .MEDIUM else st.risk_level }
  else st

/-- The eight rule blocks of `evaluate`, in source order. -/
def ruleSteps : List (ClinicalVitals → EvalSt → EvalSt) :=
  [rule1_hypertension, rule2_hypoxia, rule3_tachycardia, rule4_hypoglycemia,
   rule5_hyperglycemia, rule6_hyperthermia, rule7_advanced_age, rule8_post_term]

/-- Result dict of `ClinicalRulesEngine.evaluate` (`clinical_notes` strings
are not modelled). -/
structure RuleResult where
  risk_level : RiskLevel
  alerts : List String
  bypass_ml : Bool
  confidence : ℚ
  engine_source : String
deriving DecidableEq, Repr

/-- `ClinicalRulesEngine.evaluate`: fold the rule blocks over the initial
locals `alerts = []`, `risk_level = LOW`, `bypass_ml = False`. -/
def evaluate (v : ClinicalVitals) : RuleResult :=
  let st := ruleSteps.foldl (fun s r => r v s) ⟨[], .LOW, false⟩
  { risk_level := st.risk_level, alerts := st.alerts, bypass_ml := st.bypass_ml,
    confidence := 1, engine_source := "CLINICAL_RULES" }

/-! ## FSM orchestrator (`fsm_orchestrator.py`) -/

/-- `class FSMState` — states of the triage state machine. -/
inductive FSMState
  | INGEST
  | SANITY
  | RULE_ENGINE
  | ML_INFERENCE
  | CONFIDENCE_CHECK
  | SAVE_DB
  | DONE
  | REJECT
  | HITL_HANDOFF
deriving DecidableEq, Repr

/-- Result dict of `MaternalHealthPredictor.predict` (the fields the
orchestrator reads; `feature_importances`, `model_version`,
`probabilities` are not modelled — note `predict` returns no `alerts`
key, so `ml_result.get('alerts', [])` in the orchestrator is `[]`). -/
structure MLResult where
  risk_level : RiskLevel
  confidence : ℚ
deriving DecidableEq, Repr

/-- `class FSMContext` — execution context passed between FSM states. -/
structure FSMContext where
  raw_vitals : RawPayload
  user_id : String
  validated_vitals : Option ClinicalVitals := none
  rule_result : Option RuleResult := none
  ml_result : Option MLResult := none
  final_risk_level : Option RiskLevel := none
  confidence : Option ℚ := none
  alerts : List String := []
  current_state : FSMState := .INGEST
  is_honeypot_triggered : Bool := false
  bypass_ml : Bool := false
  requires_hitl : Bool := false
  error_message : Option String := none
deriving DecidableEq, Repr

/-- `TriageStateMachine` configuration: the HITL confidence threshold
(`settings.hitl_confidence_threshold`, default 0.65) and the outcome of
`circuit_breaker.call(ml_model.predict, vitals)` — success with a
predictor result, or failure (predictor error or `CircuitBreakerOpen`),
both of which land in the orchestrator's `except` branch. -/
structure Machine where
  hitl_threshold : ℚ
  ml_call : ClinicalVitals → Except String MLResult

/-- Honeypot deny-list of `_state_ingest`. -/
def honeypot_fields : List String :=
  ["admin_debug_mode", "__proto__", "__debug__", "is_admin", "debug_mode"]

/-- Whether any honeypot field name occurs among the payload's keys. -/
def honeypotHit (p : RawPayload) : Bool :=
  honeypot_fields.any (fun f => p.keys.contains f)

/-- One iteration of the `while` loop in `TriageStateMachine.execute`:
dispatch on the current state. Terminal states are left unchanged. -/
def fsmStep (m : Machine) (ctx : FSMContext) : FSMContext :=
  match ctx.current_state with
  | .INGEST =>
      -- `_state_ingest`: honeypot detection
      if honeypotHit ctx.raw_vitals then
        { ctx with is_honeypot_triggered := true,
                   error_message := some "Invalid request structure",
                   current_state := .REJECT }
      else
        { ctx with current_state := .SANITY }
  | .SANITY =>
      -- `_state_sanity`: pydantic validation of the raw vitals
      match validate_vitals ctx.raw_vitals with
      | .ok v => { ctx with validated_vitals := some v, current_state := .RULE_ENGINE }
      | .error _ =>
          { ctx with error_message := some "Validation failed",
                     current_state := .REJECT }
  | .RULE_ENGINE =>
      -- `_state_rule_engine`
      match ctx.validated_vitals with
      | some v =>
          let rr := evaluate v
          if rr.bypass_ml then
            { ctx with rule_result := some rr, bypass_ml := true,
                       final_risk_level := some rr.risk_level,
                       confidence := some 1,
                       alerts := rr.alerts,
                       current_state := .CONFIDENCE_CHECK }
          else
            { ctx with rule_result := some rr, current_state := .ML_INFERENCE }
      | none =>
          -- unreachable from INGEST (SANITY always sets validated_vitals);
          -- in the source an exception here is trapped by `execute` → REJECT
          { ctx with error_message := some "internal error", current_state := .REJECT }
  | .ML_INFERENCE =>
      -- `_state_ml_inference`: predictor via the circuit breaker, with
      -- fallback to the rule verdict on any failure
      match ctx.validated_vitals with
      | some v =>
          match m.ml_call v with
          | .ok r =>
              { ctx with ml_result := some r,
                         final_risk_level := some r.risk_level,
                         confidence := some r.confidence,
                         alerts := [],  -- `ml_result.get('alerts', [])`
                         current_state := .CONFIDENCE_CHECK }
          | .error _ =>
              { ctx with final_risk_level :=
                           some ((ctx.rule_result.map (·.risk_level)).getD .MEDIUM),
                         confidence := some (1/2),
                         alerts := ["ML model unavailable - using rule-based assessment"],
                         current_state := .CONFIDENCE_CHECK }
      | none =>
          { ctx with error_message := some "internal error", current_state := .REJECT }
  | .CONFIDENCE_CHECK =>
      -- `_state_confidence_check`
      if ctx.bypass_ml = false ∧ ctx.confidence.getD 0 < m.hitl_threshold then
        { ctx with requires_hitl := true, current_state := .HITL_HANDOFF }
      else
        { ctx with current_state := .SAVE_DB }
  | .SAVE_DB =>
      -- `_state_save_db`
      { ctx with current_state := .DONE }
  | .DONE => ctx
  | .REJECT => ctx
  | .HITL_HANDOFF => ctx

/-- Terminal states of the `while` loop in `execute`. -/
def FSMState.isTerminal : FSMState → Bool
  | .DONE => true
  | .REJECT => true
  | .HITL_HANDOFF => true
  | _ => false

/-- Run the FSM for up to `n` iterations, returning the final context and
the list of states actually executed (the `from_state`s of the trace). -/
def fsmRun (m : Machine) : Nat → FSMContext → FSMContext × List FSMState
  | 0, ctx => (ctx, [])
  | n + 1, ctx =>
      if ctx.current_state.isTerminal then (ctx, [])
      else
        let next := fsmStep m ctx
        let rest := fsmRun m n next
        (rest.1, ctx.current_state :: rest.2)

/-- `TriageStateMachine.execute`: the state graph
INGEST → SANITY → RULE_ENGINE → (ML_INFERENCE) → CONFIDENCE_CHECK →
SAVE_DB → DONE is acyclic with at most 6 non-terminal states, so 8
iterations always reach the loop's exit condition. -/
def execute (m : Machine) (ctx : FSMContext) : FSMContext × List FSMState :=
  fsmRun m 8 ctx

/-- Initial context built by `submit_triage` before `fsm.execute`. -/
def initContext (p : RawPayload) (user : String) : FSMContext :=
  { raw_vitals := p, user_id := user }

/-! ## Circuit breaker (`circuit.py`) -/

/-- `class CircuitState`. -/
inductive CircuitState
  | CLOSED
  | OPEN
  | HALF_OPEN
deriving DecidableEq, Repr

/-- `class CircuitBreaker` — mutable attributes. Timestamps (`time.time()`)
are modelled as rationals. -/
structure CircuitBreaker where
  state : CircuitState
  failure_count : Nat
  success_count : Nat
  last_failure_time : ℚ
  failure_threshold : Nat
  timeout_seconds : ℚ
  half_open_attempts : Nat
deriving DecidableEq, Repr

/-- `CircuitBreaker.__init__` (settings-driven; counters start at 0,
state CLOSED, `last_failure_time = 0`). -/
def CircuitBreaker.init (threshold : Nat) (timeout : ℚ) (halfOpen : Nat) : CircuitBreaker :=
  { state := .CLOSED, failure_count := 0, success_count := 0,
    last_failure_time := 0, failure_threshold := threshold,
    timeout_seconds := timeout, half_open_attempts := halfOpen }

/-- `_transition_to_open`. -/
def CircuitBreaker.transition_to_open (cb : CircuitBreaker) : CircuitBreaker :=
  { cb with state := .OPEN, success_count := 0 }

/-- `_transition_to_half_open`. -/
def CircuitBreaker.transition_to_half_open (cb : CircuitBreaker) : CircuitBreaker :=
  { cb with state := .HALF_OPEN, success_count := 0, failure_count := 0 }

/-- `_transition_to_closed`. -/
def CircuitBreaker.transition_to_closed (cb : CircuitBreaker) : CircuitBreaker :=
  { cb with state := .CLOSED, failure_count := 0, success_count := 0 }

/-- `_on_success`. -/
def CircuitBreaker.on_success (cb : CircuitBreaker) : CircuitBreaker :=
  if cb.state = .HALF_OPEN then
    let cb := { cb with success_count := cb.success_count + 1 }
    if cb.half_open_attempts ≤ cb.success_count then cb.transition_to_closed else cb
  else if cb.state = .CLOSED then
    { cb with failure_count := 0 }
  else cb

/-- `_on_failure` (`now` is the `time.time()` at the failure). -/
def CircuitBreaker.on_failure (cb : CircuitBreaker) (now : ℚ) : CircuitBreaker :=
  let cb := { cb with failure_count := cb.failure_count + 1, last_failure_time := now }
  if cb.state = .HALF_OPEN then
    cb.transition_to_open
  else if cb.state = .CLOSED ∧ cb.failure_threshold ≤ cb.failure_count then
    cb.transition_to_open
  else cb

/-- Observable outcome of `CircuitBreaker.call`. -/
inductive CallResult (α : Type)
  | ok (a : α)
  | fnError
  | breakerOpen
deriving DecidableEq, Repr

/-- The try/except body of `call` once past the OPEN check: `fn` is
invoked (its outcome given as `r`), and `_on_success` / `_on_failure`
runs. The `Bool` records that `fn` was invoked. -/
def CircuitBreaker.invokePhase (cb : CircuitBreaker) (now : ℚ)
    (r : Except Unit α) : CircuitBreaker × CallResult α × Bool :=
  match r with
  | .ok a => (cb.on_success, .ok a, true)
  | .error _ => (cb.on_failure now, .fnError, true)

/-- `CircuitBreaker.call`: when OPEN, fail fast with `CircuitBreakerOpen`
unless `time.time() - last_failure_time > timeout_seconds`, in which case
transition to HALF_OPEN and invoke `fn`. -/
def CircuitBreaker.call (cb : CircuitBreaker) (now : ℚ)
    (r : Except Unit α) : CircuitBreaker × CallResult α × Bool :=
  if cb.state = .OPEN then
    if cb.timeout_seconds < now - cb.last_failure_time then
      cb.transition_to_half_open.invokePhase now r
    else
      (cb, .breakerOpen, false)
  else
    cb.invokePhase now r

/-- Fold a sequence of failing `fn` calls (at the given timestamps)
through the breaker, as consecutive predictor failures would. -/
def CircuitBreaker.failCalls (cb : CircuitBreaker) (ts : List ℚ) : CircuitBreaker :=
  ts.foldl (fun c t => (c.call t (Except.error () : Except Unit Unit)).1) cb

/-- `submit_triage` (triage.py, lines 137-140) constructs a **fresh**
`CircuitBreaker` inside the request handler for every submission, instead
of using the module-level shared instance (`circuit.py`, line 195). The
breaker consulted by a submission whose single predictor call fails at
time `now` is therefore this one. -/
def submitRequestBreaker (threshold : Nat) (timeout : ℚ) (halfOpen : Nat)
    (now : ℚ) : CircuitBreaker :=
  ((CircuitBreaker.init threshold timeout halfOpen).call now
    (Except.error () : Except Unit Unit)).1

/-! ## HITL repository (`db/fsm_repository.py`, `resolve_hitl_case`) -/

/-- Review status values used by the repository. -/
inductive ReviewStatus
  | PENDING
  | RESOLVED
deriving DecidableEq, Repr

/-- The stored triage-decision document: the fields touched by
`resolve_hitl_case`'s `$set`, plus `rest` standing for the remainder of
the document (input vitals, trace, …), which no `$set` key touches. -/
structure DecisionDoc where
  version_id : Int
  review_status : ReviewStatus
  final_risk_level : RiskLevel
  reviewed_by : Option String
  reviewed_at : Option ℚ
  review_notes : Option String
  updated_at : ℚ
  rest : List (String × String)
deriving DecidableEq, Repr

/-- `FSMTriageRepository.resolve_hitl_case` acting on the stored document
for the given case: MongoDB's `update_one` with filter
`{_id, version_id: expected_version}` matches iff the stored
`version_id` equals `expected_version`, and then applies the whole
`$set` atomically (the new `version_id` is `expected_version + 1`, which
differs from the old one, so `modified_count > 0` exactly on a match).
Returns the stored document after the operation and the method's
`bool` result. -/
def resolve_hitl_case (doc : DecisionDoc) (doctor_id : String)
    (final_risk_level : RiskLevel) (notes : Option String)
    (expected_version : Int) (now : ℚ) : DecisionDoc × Bool :=
  if doc.version_id = expected_version then
    ({ doc with review_status := .RESOLVED,
                final_risk_level := final_risk_level,
                reviewed_by := some doctor_id,
                reviewed_at := some now,
                review_notes := notes,
                updated_at := now,
                version_id := expected_version + 1 }, true)
  else
    (doc, false)

/-! ## Helper lemmas about the rules engine -/

/-- A property preserved by every step of a step list is preserved by the
fold that `evaluate` performs. -/
theorem foldl_rules_pres (P : EvalSt → Prop) (v : ClinicalVitals)
    (l : List (ClinicalVitals → EvalSt → EvalSt))
    (h : ∀ f ∈ l, ∀ st, P st → P (f v st)) :
    ∀ st, P st → P (l.foldl (fun s r => r v s) st) := by
  induction l with
  | nil => intro st hst; exact hst
  | cons f fs ih =>
      intro st hst
      exact ih (fun g hg st' hst' => h g (List.mem_cons_of_mem f hg) st' hst') _
        (h f (List.mem_cons_self f fs) st hst)

/-- Every rule block only appends to the alert list, never lowers a
CRITICAL risk level, and never clears the bypass flag. -/
theorem rule_step_pres (f : ClinicalVitals → EvalSt → EvalSt)
    (hf : f ∈ ruleSteps) (v : ClinicalVitals) (st : EvalSt) :
    (∀ a ∈ st.alerts, a ∈ (f v st).alerts) ∧
    (st.risk_level = .CRITICAL → (f v st).risk_level = .CRITICAL) ∧
    (st.bypass_ml = true → (f v st).bypass_ml = true) := by
  fin_cases hf <;>
    simp only [rule1_hypertension, rule2_hypoxia, rule3_tachycardia,
      rule4_hypoglycemia, rule5_hyperglycemia, rule6_hyperthermia,
      rule7_advanced_age, rule8_post_term] <;>
    split_ifs <;>
    simp_all <;>
    rcases st with ⟨al, rl, bp⟩ <;> cases rl <;> simp_all

/-- If SBP ≥ 140 or DBP ≥ 90, `evaluate` reports CRITICAL risk, the
HYPERTENSIVE_CRISIS alert, the ML bypass flag and confidence 1. -/
theorem evaluate_hypertensive (v : ClinicalVitals)
    (h : 140 ≤ v.systolic_bp ∨ 90 ≤ v.diastolic_bp) :
    (evaluate v).risk_level = .CRITICAL ∧
    "HYPERTENSIVE_CRISIS" ∈ (evaluate v).alerts ∧
    (evaluate v).bypass_ml = true ∧
    (evaluate v).confidence = 1 := by
  have hstep : ruleSteps =
      rule1_hypertension :: [rule2_hypoxia, rule3_tachycardia, rule4_hypoglycemia,
        rule5_hyperglycemia, rule6_hyperthermia, rule7_advanced_age, rule8_post_term] := rfl
  have h1 : rule1_hypertension v ⟨[], .LOW, false⟩ =
      ⟨["HYPERTENSIVE_CRISIS"], .CRITICAL, true⟩ := by
    simp [rule1_hypertension, h]
  have key := foldl_rules_pres
    (fun st => "HYPERTENSIVE_CRISIS" ∈ st.alerts ∧ st.risk_level = .CRITICAL ∧ st.bypass_ml = true)
    v [rule2_hypoxia, rule3_tachycardia, rule4_hypoglycemia,
       rule5_hyperglycemia, rule6_hyperthermia, rule7_advanced_age, rule8_post_term]
    (by
      intro f hf st hst
      have hf' : f ∈ ruleSteps := by
        simp only [ruleSteps, List.mem_cons] at hf ⊢; tauto
      obtain ⟨ha, hc, hb⟩ := rule_step_pres f hf' v st
      exact ⟨ha _ hst.1, hc hst.2.1, hb hst.2.2⟩)
    ⟨["HYPERTENSIVE_CRISIS"], .CRITICAL, true⟩ (by simp)
  simp only [evaluate, hstep, List.foldl_cons, h1]
  exact ⟨key.2.1, key.1, key.2.2, by trivial⟩

/-! ## Helper lemmas about the FSM driver -/

/-- Unrolling `execute`'s loop: one iteration from a non-terminal state. -/
theorem fsmRun_succ_of_not_terminal (m : Machine) (n : Nat) (ctx : FSMContext)
    (h : ctx.current_state.isTerminal = false) :
    fsmRun m (n + 1) ctx =
      ((fsmRun m n (fsmStep m ctx)).1,
       ctx.current_state :: (fsmRun m n (fsmStep m ctx)).2) := by
  simp [fsmRun, h]

/-- The loop exits immediately at a terminal state. -/
theorem fsmRun_terminal (m : Machine) (n : Nat) (ctx : FSMContext)
    (h : ctx.current_state.isTerminal = true) :
    fsmRun m n ctx = (ctx, []) := by
  cases n <;> simp [fsmRun, h]

/-- The complete bypass path of `execute`: from a fresh context whose
payload carries no honeypot field and validates to `v`, if the rules
engine sets `bypass_ml`, the FSM runs
INGEST → SANITY → RULE_ENGINE → CONFIDENCE_CHECK → SAVE_DB → DONE,
adopting the rule verdict at confidence 1, and never executes
ML_INFERENCE. -/
theorem execute_bypass_path (m : Machine) (p : RawPayload) (user : String)
    (v : ClinicalVitals)
    (hhp : honeypotHit p = false)
    (hval : validate_vitals p = .ok v)
    (hbyp : (evaluate v).bypass_ml = true) :
    execute m (initContext p user) =
      (⟨p, user, some v, some (evaluate v), none, some (evaluate v).risk_level,
        some 1, (evaluate v).alerts, .DONE, false, true, false, none⟩,
       [.INGEST, .SANITY, .RULE_ENGINE, .CONFIDENCE_CHECK, .SAVE_DB]) := by
  have e0 : initContext p user =
      ⟨p, user, none, none, none, none, none, [], .INGEST, false, false, false, none⟩ := rfl
  have h1 : fsmStep m ⟨p, user, none, none, none, none, none, [], .INGEST, false, false, false, none⟩ =
      ⟨p, user, none, none, none, none, none, [], .SANITY, false, false, false, none⟩ := by
    simp [fsmStep, hhp]
  have h2 : fsmStep m ⟨p, user, none, none, none, none, none, [], .SANITY, false, false, false, none⟩ =
      ⟨p, user, some v, none, none, none, none, [], .RULE_ENGINE, false, false, false, none⟩ := by
    simp [fsmStep, hval]
  have h3 : fsmStep m ⟨p, user, some v, none, none, none, none, [], .RULE_ENGINE, false, false, false, none⟩ =
      ⟨p, user, some v, some (evaluate v), none, some (evaluate v).risk_level, some 1,
        (evaluate v).alerts, .CONFIDENCE_CHECK, false, true, false, none⟩ := by
    simp [fsmStep, hbyp]
  have h4 : fsmStep m ⟨p, user, some v, some (evaluate v), none, some (evaluate v).risk_level, some 1,
        (evaluate v).alerts, .CONFIDENCE_CHECK, false, true, false, none⟩ =
      ⟨p, user, some v, some (evaluate v), none, some (evaluate v).risk_level, some 1,
        (evaluate v).alerts, .SAVE_DB, false, true, false, none⟩ := by
    simp [fsmStep]
  have h5 : fsmStep m ⟨p, user, some v, some (evaluate v), none, some (evaluate v).risk_level, some 1,
        (evaluate v).alerts, .SAVE_DB, false, true, false, none⟩ =
      ⟨p, user, some v, some (evaluate v), none, some (evaluate v).risk_level, some 1,
        (evaluate v).alerts, .DONE, false, true, false, none⟩ := by
    simp [fsmStep]
  simp only [execute, e0]
  rw [fsmRun_succ_of_not_terminal _ _ _ (by rfl), h1,
      fsmRun_succ_of_not_terminal _ _ _ (by rfl), h2,
      fsmRun_succ_of_not_terminal _ _ _ (by rfl), h3,
      fsmRun_succ_of_not_terminal _ _ _ (by rfl), h4,
      fsmRun_succ_of_not_terminal _ _ _ (by rfl), h5,
      fsmRun_terminal _ _ _ (by rfl)]

/-! ## Claim theorems -/

/-- **C1.** For every validated `ClinicalVitals` with systolic BP ≥ 140 or
diastolic BP ≥ 90, the rules engine's `evaluate` returns CRITICAL risk,
an alert set containing HYPERTENSIVE_CRISIS, `bypass_ml = true` and
confidence 1.0; and the orchestrator's `execute` on such input adopts
this verdict, reaches terminal state DONE, and never invokes the
predictor (the ML_INFERENCE state is never executed, so the breaker-
wrapped predictor call never happens). -/
theorem C1_hypertensive_crisis_bypass (m : Machine) (p : RawPayload)
    (user : String) (v : ClinicalVitals)
    (hhp : honeypotHit p = false)
    (hval : validate_vitals p = .ok v)
    (hbp : 140 ≤ v.systolic_bp ∨ 90 ≤ v.diastolic_bp) :
    ((evaluate v).risk_level = .CRITICAL ∧
     "HYPERTENSIVE_CRISIS" ∈ (evaluate v).alerts ∧
     (evaluate v).bypass_ml = true ∧
     (evaluate v).confidence = 1) ∧
    ((execute m (initContext p user)).1.current_state = .DONE ∧
     (execute m (initContext p user)).1.final_risk_level = some .CRITICAL ∧
     (execute m (initContext p user)).1.confidence = some 1 ∧
     (execute m (initContext p user)).1.bypass_ml = true ∧
     FSMState.ML_INFERENCE ∉ (execute m (initContext p user)).2) := by
  obtain ⟨hrisk, halert, hbyp, hconf⟩ := evaluate_hypertensive v hbp
  have hrun := execute_bypass_path m p user v hhp hval hbyp
  refine ⟨⟨hrisk, halert, hbyp, hconf⟩, ?_, ?_, ?_, ?_, ?_⟩ <;>
    rw [hrun] <;> simp [hrisk]

/-- The spec's end-to-end example payload:
age 28, BP 145/95, HR 88, temp 37.2 °C, SpO₂ 97 %, sugar 6.5 mmol/L,
28 gestational weeks. -/
def examplePayload : RawPayload :=
  { extraKeys := [], age := 28, systolic_bp := 145, diastolic_bp := 95,
    heart_rate := 88, body_temp := 186/5, blood_oxygen := 97,
    blood_sugar := 13/2, gestational_weeks := 28, symptoms := none }

/-- The validated vitals of `examplePayload`. -/
def exampleVitals : ClinicalVitals :=
  { age := 28, systolic_bp := 145, diastolic_bp := 95, heart_rate := 88,
    body_temp := 186/5, blood_oxygen := 97, blood_sugar := 13/2,
    gestational_weeks := 28, symptoms := none }

/-- A machine with the default HITL threshold 0.65 and a failing predictor. -/
def exampleMachineDown : Machine :=
  ⟨13/20, fun _ => Except.error "predictor down"⟩

/-- Witness for C1 at the spec's end-to-end example input. -/
theorem C1_hypertensive_crisis_bypass_witness :
    ((evaluate exampleVitals).risk_level = .CRITICAL ∧
     "HYPERTENSIVE_CRISIS" ∈ (evaluate exampleVitals).alerts ∧
     (evaluate exampleVitals).bypass_ml = true ∧
     (evaluate exampleVitals).confidence = 1) ∧
    ((execute exampleMachineDown (initContext examplePayload "asha-1")).1.current_state = .DONE ∧
     (execute exampleMachineDown (initContext examplePayload "asha-1")).1.final_risk_level = some .CRITICAL ∧
     (execute exampleMachineDown (initContext examplePayload "asha-1")).1.confidence = some 1 ∧
     (execute exampleMachineDown (initContext examplePayload "asha-1")).1.bypass_ml = true ∧
     FSMState.ML_INFERENCE ∉ (execute exampleMachineDown (initContext examplePayload "asha-1")).2) :=
  C1_hypertensive_crisis_bypass exampleMachineDown examplePayload "asha-1" exampleVitals
    (by decide) (by norm_num [validate_vitals, examplePayload, exampleVitals]) (Or.inl (by decide))

/-- **C2.** In the CONFIDENCE_CHECK state: a context with
`bypass_ml = false` and confidence strictly below the machine's HITL
threshold terminates in HITL_HANDOFF with `requires_hitl = true`; a
context with `bypass_ml = true` or confidence at least the threshold
proceeds to SAVE_DB and terminates in DONE. -/
theorem C2_confidence_gate (m : Machine) (ctx : FSMContext) (c : ℚ)
    (hstate : ctx.current_state = .CONFIDENCE_CHECK)
    (hconf : ctx.confidence = some c) :
    (ctx.bypass_ml = false → c < m.hitl_threshold →
      (execute m ctx).1.current_state = .HITL_HANDOFF ∧
      (execute m ctx).1.requires_hitl = true) ∧
    (ctx.bypass_ml = true ∨ m.hitl_threshold ≤ c →
      (execute m ctx).1.current_state = .DONE) := by
  obtain ⟨rv, uid, vv, rr, mlr, frl, conf, al, cs, hp, byp, rh, em⟩ := ctx
  simp only at hstate hconf
  subst hstate; subst hconf
  constructor
  · intro hb hlt
    simp only at hb; subst hb
    have hstep : fsmStep m ⟨rv, uid, vv, rr, mlr, frl, some c, al, .CONFIDENCE_CHECK, hp, false, rh, em⟩ =
        ⟨rv, uid, vv, rr, mlr, frl, some c, al, .HITL_HANDOFF, hp, false, true, em⟩ := by
      simp [fsmStep, hlt]
    simp only [execute]
    rw [fsmRun_succ_of_not_terminal _ _ _ (by rfl), hstep,
        fsmRun_terminal _ _ _ (by rfl)]
    exact ⟨rfl, rfl⟩
  · intro h
    have hcond : ¬ (byp = false ∧ (Option.getD (some c) 0 : ℚ) < m.hitl_threshold) := by
      rcases h with h | h
      · simp only at h; subst h; simp
      · intro hc; exact absurd hc.2 (by simpa using not_lt.mpr h)
    have hstep : fsmStep m ⟨rv, uid, vv, rr, mlr, frl, some c, al, .CONFIDENCE_CHECK, hp, byp, rh, em⟩ =
        ⟨rv, uid, vv, rr, mlr, frl, some c, al, .SAVE_DB, hp, byp, rh, em⟩ := by
      simp only [fsmStep, if_neg hcond]
    have hstep2 : fsmStep m ⟨rv, uid, vv, rr, mlr, frl, some c, al, .SAVE_DB, hp, byp, rh, em⟩ =
        ⟨rv, uid, vv, rr, mlr, frl, some c, al, .DONE, hp, byp, rh, em⟩ := by
      simp [fsmStep]
    simp only [execute]
    rw [fsmRun_succ_of_not_terminal _ _ _ (by rfl), hstep,
        fsmRun_succ_of_not_terminal _ _ _ (by rfl), hstep2,
        fsmRun_terminal _ _ _ (by rfl)]

/-- A context sitting at CONFIDENCE_CHECK with the given bypass flag and
confidence, as produced for a low-confidence (or bypassed) verdict. -/
def confCheckCtx (byp : Bool) (c : ℚ) : FSMContext :=
  ⟨examplePayload, "asha-1", some exampleVitals, none, none, some .MEDIUM,
   some c, [], .CONFIDENCE_CHECK, false, byp, false, none⟩

/-- Witness for C2: with threshold 0.65, confidence 0.50 (no bypass)
terminates in HITL_HANDOFF with review required, and confidence 0.80
terminates in DONE. -/
theorem C2_confidence_gate_witness :
    ((execute ⟨13/20, fun _ => Except.error "x"⟩ (confCheckCtx false (1/2))).1.current_state = .HITL_HANDOFF ∧
     (execute ⟨13/20, fun _ => Except.error "x"⟩ (confCheckCtx false (1/2))).1.requires_hitl = true) ∧
    (execute ⟨13/20, fun _ => Except.error "x"⟩ (confCheckCtx false (4/5))).1.current_state = .DONE :=
  ⟨(C2_confidence_gate ⟨13/20, fun _ => Except.error "x"⟩ (confCheckCtx false (1/2)) (1/2)
      rfl rfl).1 rfl (by norm_num),
   (C2_confidence_gate ⟨13/20, fun _ => Except.error "x"⟩ (confCheckCtx false (4/5)) (4/5)
      rfl rfl).2 (Or.inr (by norm_num))⟩

/-- The degraded-mode alert recorded by `_state_ml_inference`'s fallback. -/
def degradedAlert : String := "ML model unavailable - using rule-based assessment"

/-- The full predictor-failure path of `execute`: no honeypot, the payload
validates to `v`, the rules do not bypass, and the breaker-wrapped
predictor call fails. The run reaches CONFIDENCE_CHECK carrying the rule
verdict at confidence 0.5 and the degraded-mode alert, then terminates in
HITL_HANDOFF or DONE according to the HITL threshold. -/
theorem execute_ml_fallback_path (m : Machine) (p : RawPayload) (user : String)
    (v : ClinicalVitals) (e : String)
    (hhp : honeypotHit p = false)
    (hval : validate_vitals p = .ok v)
    (hnb : (evaluate v).bypass_ml = false)
    (hml : m.ml_call v = .error e) :
    execute m (initContext p user) =
      (⟨p, user, some v, some (evaluate v), none, some (evaluate v).risk_level,
        some (1/2), [degradedAlert], .HITL_HANDOFF, false, false, true, none⟩,
       [.INGEST, .SANITY, .RULE_ENGINE, .ML_INFERENCE, .CONFIDENCE_CHECK]) ∨
    execute m (initContext p user) =
      (⟨p, user, some v, some (evaluate v), none, some (evaluate v).risk_level,
        some (1/2), [degradedAlert], .DONE, false, false, false, none⟩,
       [.INGEST, .SANITY, .RULE_ENGINE, .ML_INFERENCE, .CONFIDENCE_CHECK, .SAVE_DB]) := by
  have h1 : fsmStep m ⟨p, user, none, none, none, none, none, [], .INGEST, false, false, false, none⟩ =
      ⟨p, user, none, none, none, none, none, [], .SANITY, false, false, false, none⟩ := by
    simp [fsmStep, hhp]
  have h2 : fsmStep m ⟨p, user, none, none, none, none, none, [], .SANITY, false, false, false, none⟩ =
      ⟨p, user, some v, none, none, none, none, [], .RULE_ENGINE, false, false, false, none⟩ := by
    simp [fsmStep, hval]
  have h3 : fsmStep m ⟨p, user, some v, none, none, none, none, [], .RULE_ENGINE, false, false, false, none⟩ =
      ⟨p, user, some v, some (evaluate v), none, none, none, [], .ML_INFERENCE, false, false, false, none⟩ := by
    simp [fsmStep, hnb]
  have h4 : fsmStep m ⟨p, user, some v, some (evaluate v), none, none, none, [], .ML_INFERENCE, false, false, false, none⟩ =
      ⟨p, user, some v, some (evaluate v), none, some (evaluate v).risk_level,
        some (1/2), [degradedAlert], .CONFIDENCE_CHECK, false, false, false, none⟩ := by
    simp [fsmStep, hml, degradedAlert]
  by_cases hc : (1/2 : ℚ) < m.hitl_threshold
  · left
    have h5 : fsmStep m ⟨p, user, some v, some (evaluate v), none, some (evaluate v).risk_level,
          some (1/2), [degradedAlert], .CONFIDENCE_CHECK, false, false, false, none⟩ =
        ⟨p, user, some v, some (evaluate v), none, some (evaluate v).risk_level,
          some (1/2), [degradedAlert], .HITL_HANDOFF, false, false, true, none⟩ := by
      simp [fsmStep]
      simpa using hc
    show fsmRun m 8 (initContext p user) = _
    have e0 : initContext p user =
        ⟨p, user, none, none, none, none, none, [], .INGEST, false, false, false, none⟩ := rfl
    rw [e0,
        fsmRun_succ_of_not_terminal _ _ _ (by rfl), h1,
        fsmRun_succ_of_not_terminal _ _ _ (by rfl), h2,
        fsmRun_succ_of_not_terminal _ _ _ (by rfl), h3,
        fsmRun_succ_of_not_terminal _ _ _ (by rfl), h4,
        fsmRun_succ_of_not_terminal _ _ _ (by rfl), h5,
        fsmRun_terminal _ _ _ (by rfl)]
  · right
    have h5 : fsmStep m ⟨p, user, some v, some (evaluate v), none, some (evaluate v).risk_level,
          some (1/2), [degradedAlert], .CONFIDENCE_CHECK, false, false, false, none⟩ =
        ⟨p, user, some v, some (evaluate v), none, some (evaluate v).risk_level,
          some (1/2), [degradedAlert], .SAVE_DB, false, false, false, none⟩ := by
      simp [fsmStep]
      simpa using not_lt.mp hc
    have h6 : fsmStep m ⟨p, user, some v, some (evaluate v), none, some (evaluate v).risk_level,
          some (1/2), [degradedAlert], .SAVE_DB, false, false, false, none⟩ =
        ⟨p, user, some v, some (evaluate v), none, some (evaluate v).risk_level,
          some (1/2), [degradedAlert], .DONE, false, false, false, none⟩ := by
      simp [fsmStep]
    show fsmRun m 8 (initContext p user) = _
    have e0 : initContext p user =
        ⟨p, user, none, none, none, none, none, [], .INGEST, false, false, false, none⟩ := rfl
    rw [e0,
        fsmRun_succ_of_not_terminal _ _ _ (by rfl), h1,
        fsmRun_succ_of_not_terminal _ _ _ (by rfl), h2,
        fsmRun_succ_of_not_terminal _ _ _ (by rfl), h3,
        fsmRun_succ_of_not_terminal _ _ _ (by rfl), h4,
        fsmRun_succ_of_not_terminal _ _ _ (by rfl), h5,
        fsmRun_succ_of_not_terminal _ _ _ (by rfl), h6,
        fsmRun_terminal _ _ _ (by rfl)]

/-- **C3.** On any predictor failure (breaker-open or predictor error,
both of which make the breaker-wrapped call fail), the orchestrator sets
the final risk level to the rule verdict's risk level, confidence to 0.5,
records the explicit degraded-mode alert, and proceeds to
CONFIDENCE_CHECK; the failure never surfaces (no error message, terminal
state is never REJECT) and the pipeline always reaches a terminal state. -/
theorem C3_predictor_failure_fallback (m : Machine) (p : RawPayload)
    (user : String) (v : ClinicalVitals) (e : String)
    (hhp : honeypotHit p = false)
    (hval : validate_vitals p = .ok v)
    (hnb : (evaluate v).bypass_ml = false)
    (hml : m.ml_call v = .error e) :
    (execute m (initContext p user)).1.final_risk_level = some (evaluate v).risk_level ∧
    (execute m (initContext p user)).1.confidence = some (1/2) ∧
    degradedAlert ∈ (execute m (initContext p user)).1.alerts ∧
    FSMState.CONFIDENCE_CHECK ∈ (execute m (initContext p user)).2 ∧
    (execute m (initContext p user)).1.error_message = none ∧
    (execute m (initContext p user)).1.current_state ≠ .REJECT ∧
    ((execute m (initContext p user)).1.current_state = .DONE ∨
     (execute m (initContext p user)).1.current_state = .HITL_HANDOFF) := by
  rcases execute_ml_fallback_path m p user v e hhp hval hnb hml with h | h <;>
    rw [h] <;> simp

/-- A payload with all vitals in their normal ranges (no rule fires). -/
def normalPayload : RawPayload :=
  { extraKeys := [], age := 28, systolic_bp := 120, diastolic_bp := 80,
    heart_rate := 75, body_temp := 37, blood_oxygen := 98,
    blood_sugar := 11/2, gestational_weeks := 24, symptoms := none }

/-- The validated vitals of `normalPayload`. -/
def normalVitals : ClinicalVitals :=
  { age := 28, systolic_bp := 120, diastolic_bp := 80, heart_rate := 75,
    body_temp := 37, blood_oxygen := 98, blood_sugar := 11/2,
    gestational_weeks := 24, symptoms := none }

/-- Witness for C3 at normal vitals with a failing predictor. -/
theorem C3_predictor_failure_fallback_witness :
    (execute exampleMachineDown (initContext normalPayload "asha-1")).1.final_risk_level
        = some (evaluate normalVitals).risk_level ∧
    (execute exampleMachineDown (initContext normalPayload "asha-1")).1.confidence = some (1/2) ∧
    degradedAlert ∈ (execute exampleMachineDown (initContext normalPayload "asha-1")).1.alerts ∧
    FSMState.CONFIDENCE_CHECK ∈ (execute exampleMachineDown (initContext normalPayload "asha-1")).2 ∧
    (execute exampleMachineDown (initContext normalPayload "asha-1")).1.error_message = none ∧
    (execute exampleMachineDown (initContext normalPayload "asha-1")).1.current_state ≠ .REJECT ∧
    ((execute exampleMachineDown (initContext normalPayload "asha-1")).1.current_state = .DONE ∨
     (execute exampleMachineDown (initContext normalPayload "asha-1")).1.current_state = .HITL_HANDOFF) :=
  C3_predictor_failure_fallback exampleMachineDown normalPayload "asha-1" normalVitals
    "predictor down" (by decide)
    (by norm_num [validate_vitals, normalPayload, normalVitals])
    (by norm_num [evaluate, ruleSteps, normalVitals, rule1_hypertension, rule2_hypoxia,
          rule3_tachycardia, rule4_hypoglycemia, rule5_hyperglycemia, rule6_hyperthermia,
          rule7_advanced_age, rule8_post_term, List.foldl])
    rfl

/-- The eight alert names a rule block can emit (`class ClinicalAlert`). -/
def clinicalAlertNames : List String :=
  ["HYPERTENSIVE_CRISIS", "HYPOXIA", "TACHYCARDIA", "HYPERTHERMIA",
   "HYPOGLYCEMIA", "HYPERGLYCEMIA", "ADVANCED_MATERNAL_AGE", "POST_TERM_PREGNANCY"]

/-- Each rule block only adds alerts drawn from the eight clinical alert
names. -/
theorem rule_step_alerts_sub (f : ClinicalVitals → EvalSt → EvalSt)
    (hf : f ∈ ruleSteps) (v : ClinicalVitals) (st : EvalSt) :
    ∀ a ∈ (f v st).alerts, a ∈ st.alerts ∨ a ∈ clinicalAlertNames := by
  fin_cases hf <;>
    simp only [rule1_hypertension, rule2_hypoxia, rule3_tachycardia,
      rule4_hypoglycemia, rule5_hyperglycemia, rule6_hyperthermia,
      rule7_advanced_age, rule8_post_term] <;>
    split_ifs <;>
    intro a ha <;>
    simp_all [clinicalAlertNames] <;>
    tauto

/-- Every alert the rules engine emits is one of the eight clinical alert
names. -/
theorem evaluate_alerts_allowed (v : ClinicalVitals) :
    ∀ a ∈ (evaluate v).alerts, a ∈ clinicalAlertNames := by
  have key := foldl_rules_pres (fun st => ∀ a ∈ st.alerts, a ∈ clinicalAlertNames) v ruleSteps
    (by
      intro f hf st hst a ha
      rcases rule_step_alerts_sub f hf v st a ha with h | h
      · exact hst a h
      · exact h)
    ⟨[], .LOW, false⟩ (by simp)
  simpa [evaluate] using key

/-- **C10.** When the rules engine returns `bypass_ml = false` with a
non-empty alert list and the predictor call then fails, the terminal
context's alert list is exactly the single degraded-mode string: the
rule-engine alerts are replaced, not merged, and none of them appears in
the terminal outcome. -/
theorem C10_fallback_replaces_rule_alerts (m : Machine) (p : RawPayload)
    (user : String) (v : ClinicalVitals) (e : String)
    (hhp : honeypotHit p = false)
    (hval : validate_vitals p = .ok v)
    (hnb : (evaluate v).bypass_ml = false)
    (hne : (evaluate v).alerts ≠ [])
    (hml : m.ml_call v = .error e) :
    (execute m (initContext p user)).1.alerts = [degradedAlert] ∧
    ∀ a ∈ (evaluate v).alerts, a ∉ (execute m (initContext p user)).1.alerts := by
  have halerts : (execute m (initContext p user)).1.alerts = [degradedAlert] := by
    rcases execute_ml_fallback_path m p user v e hhp hval hnb hml with h | h <;> rw [h]
  refine ⟨halerts, ?_⟩
  intro a ha hmem
  rw [halerts] at hmem
  have hallowed := evaluate_alerts_allowed v a ha
  simp only [List.mem_singleton] at hmem
  subst hmem
  revert hallowed
  simp [clinicalAlertNames, degradedAlert]

/-- A payload whose only firing rule is hyperthermia (39 °C): HIGH risk,
alert HYPERTHERMIA, no ML bypass. -/
def feverPayload : RawPayload :=
  { extraKeys := [], age := 28, systolic_bp := 120, diastolic_bp := 80,
    heart_rate := 75, body_temp := 39, blood_oxygen := 98,
    blood_sugar := 11/2, gestational_weeks := 24, symptoms := none }

/-- The validated vitals of `feverPayload`. -/
def feverVitals : ClinicalVitals :=
  { age := 28, systolic_bp := 120, diastolic_bp := 80, heart_rate := 75,
    body_temp := 39, blood_oxygen := 98, blood_sugar := 11/2,
    gestational_weeks := 24, symptoms := none }

/-- Witness for C10: hyperthermia vitals (alert list ["HYPERTHERMIA"],
no bypass) with a failing predictor. -/
theorem C10_fallback_replaces_rule_alerts_witness :
    (execute exampleMachineDown (initContext feverPayload "asha-1")).1.alerts = [degradedAlert] ∧
    ∀ a ∈ (evaluate feverVitals).alerts,
      a ∉ (execute exampleMachineDown (initContext feverPayload "asha-1")).1.alerts :=
  C10_fallback_replaces_rule_alerts exampleMachineDown feverPayload "asha-1" feverVitals
    "predictor down" (by decide)
    (by norm_num [validate_vitals, feverPayload, feverVitals])
    (by norm_num [evaluate, ruleSteps, feverVitals, rule1_hypertension, rule2_hypoxia,
          rule3_tachycardia, rule4_hypoglycemia, rule5_hyperglycemia, rule6_hyperthermia,
          rule7_advanced_age, rule8_post_term, List.foldl])
    (by norm_num [evaluate, ruleSteps, feverVitals, rule1_hypertension, rule2_hypoxia,
          rule3_tachycardia, rule4_hypoglycemia, rule5_hyperglycemia, rule6_hyperthermia,
          rule7_advanced_age, rule8_post_term, List.foldl])
    rfl

/-- A payload identical to `normalPayload` but with the honeypot field
`is_admin` injected. -/
def honeypotPayload : RawPayload :=
  { normalPayload with extraKeys := ["is_admin"] }

/-- **C7 counterexample.** The orchestrator's honeypot rejection sets the
error message to "Invalid request structure" (capital I), not the
claim's "invalid request structure": at a payload carrying the
deny-listed field `is_admin`, the terminal error message differs from
the claimed string. -/
theorem C7_counterexample_message_case :
    (∃ f ∈ honeypot_fields, f ∈ honeypotPayload.keys) ∧
    (execute exampleMachineDown (initContext honeypotPayload "asha-1")).1.current_state = .REJECT ∧
    (execute exampleMachineDown (initContext honeypotPayload "asha-1")).1.error_message ≠
      some "invalid request structure" ∧
    (execute exampleMachineDown (initContext honeypotPayload "asha-1")).1.error_message =
      some "Invalid request structure" := by
  refine ⟨⟨"is_admin", by decide, by decide⟩, ?_⟩
  have hstep : fsmStep exampleMachineDown
      ⟨honeypotPayload, "asha-1", none, none, none, none, none, [], .INGEST, false, false, false, none⟩ =
      ⟨honeypotPayload, "asha-1", none, none, none, none, none, [], .REJECT, true, false, false,
        some "Invalid request structure"⟩ := by
    simp only [fsmStep]
    rw [if_pos (by decide)]
  have e0 : initContext honeypotPayload "asha-1" =
      ⟨honeypotPayload, "asha-1", none, none, none, none, none, [], .INGEST, false, false, false, none⟩ := rfl
  show _ ∧ (execute _ _).1.error_message ≠ _ ∧ _
  simp only [execute, e0]
  rw [fsmRun_succ_of_not_terminal _ _ _ (by rfl), hstep, fsmRun_terminal _ _ _ (by rfl)]
  refine ⟨rfl, ?_, rfl⟩
  simp

/-- **C7 (amended).** For every raw payload containing at least one
deny-listed honeypot field name, the INGEST state terminates the pipeline
in REJECT with `is_honeypot_triggered = true` and the generic error
message "Invalid request structure", and only INGEST is ever executed
(so the validator, the rules engine and the predictor never run); for a
payload with no deny-listed field, INGEST proceeds to SANITY. -/
theorem C7_honeypot_reject (m : Machine) (p : RawPayload) (user : String) :
    ((∃ f ∈ honeypot_fields, f ∈ p.keys) →
      (execute m (initContext p user)).1.current_state = .REJECT ∧
      (execute m (initContext p user)).1.is_honeypot_triggered = true ∧
      (execute m (initContext p user)).1.error_message = some "Invalid request structure" ∧
      (execute m (initContext p user)).2 = [.INGEST]) ∧
    ((∀ f ∈ honeypot_fields, f ∉ p.keys) →
      (fsmStep m (initContext p user)).current_state = .SANITY) := by
  have e0 : initContext p user =
      ⟨p, user, none, none, none, none, none, [], .INGEST, false, false, false, none⟩ := rfl
  constructor
  · rintro ⟨f, hf, hfp⟩
    have hhit : honeypotHit p = true := by
      simp only [honeypotHit, List.any_eq_true]
      exact ⟨f, hf, by simpa using hfp⟩
    have hstep : fsmStep m ⟨p, user, none, none, none, none, none, [], .INGEST, false, false, false, none⟩ =
        ⟨p, user, none, none, none, none, none, [], .REJECT, true, false, false,
          some "Invalid request structure"⟩ := by
      simp [fsmStep, hhit]
    simp only [execute, e0]
    rw [fsmRun_succ_of_not_terminal _ _ _ (by rfl), hstep, fsmRun_terminal _ _ _ (by rfl)]
    exact ⟨rfl, rfl, rfl, rfl⟩
  · intro hno
    have hhit : honeypotHit p = false := by
      simp only [honeypotHit, List.any_eq_false]
      intro f hf
      simpa using hno f hf
    rw [e0]
    simp [fsmStep, hhit]

/-- Witness for the amended C7: the `is_admin` payload is rejected with
the generic message and only INGEST runs; `normalPayload` proceeds to
SANITY. -/
theorem C7_honeypot_reject_witness :
    ((execute exampleMachineDown (initContext honeypotPayload "asha-2")).1.current_state = .REJECT ∧
     (execute exampleMachineDown (initContext honeypotPayload "asha-2")).1.is_honeypot_triggered = true ∧
     (execute exampleMachineDown (initContext honeypotPayload "asha-2")).1.error_message = some "Invalid request structure" ∧
     (execute exampleMachineDown (initContext honeypotPayload "asha-2")).2 = [.INGEST]) ∧
    (fsmStep exampleMachineDown (initContext normalPayload "asha-2")).current_state = .SANITY :=
  ⟨(C7_honeypot_reject exampleMachineDown honeypotPayload "asha-2").1
      ⟨"is_admin", by decide, by decide⟩,
   (C7_honeypot_reject exampleMachineDown normalPayload "asha-2").2 (by decide)⟩

/-- A payload with reversed blood pressure (80/90) **and** an
out-of-range age (10): pydantic's field-level range checks run first, so
the reported failure is the age range error, not ADVERSARIAL_INPUT. -/
def reversedBPBadAgePayload : RawPayload :=
  { extraKeys := [], age := 10, systolic_bp := 80, diastolic_bp := 90,
    heart_rate := 75, body_temp := 37, blood_oxygen := 98, blood_sugar := 11/2,
    gestational_weeks := 24, symptoms := none }

/-- Whether a validation failure is the adversarial-input sub-kind. -/
def ValidationError.isAdversarial : ValidationError → Bool
  | .adversarialInput _ _ => true
  | .rangeError _ => false

/-- **C6 counterexample.** A raw input with systolicBP ≤ diastolicBP whose
age is also out of range fails validation with a plain range error, not
the AdversarialInput sub-kind — the claim's "regardless of the values of
all other fields" is false, because the `mode='after'` cross-field
validator never runs when a field-level check fails. -/
theorem C6_counterexample_range_preempts_adversarial :
    reversedBPBadAgePayload.systolic_bp ≤ reversedBPBadAgePayload.diastolic_bp ∧
    validate_vitals reversedBPBadAgePayload = .error (.rangeError "age") ∧
    (ValidationError.rangeError "age").isAdversarial = false := by
  refine ⟨by decide, ?_, by decide⟩
  norm_num [validate_vitals, reversedBPBadAgePayload]

/-- **C6 (amended).** For every raw input with systolicBP ≤ diastolicBP in
which every field passes its range check, validation fails with the
AdversarialInput sub-kind; and for every raw input with
systolicBP ≤ diastolicBP — whatever the other fields — validation fails,
so no `ClinicalVitals` value is ever constructed from such input (when
some field is also out of range, the failure is that field's range
error rather than AdversarialInput). -/
theorem C6_reversed_bp_rejected (p : RawPayload)
    (hle : p.systolic_bp ≤ p.diastolic_bp) :
    ((15 ≤ p.age ∧ p.age ≤ 60) →
     (70 ≤ p.systolic_bp ∧ p.systolic_bp ≤ 230) →
     (40 ≤ p.diastolic_bp ∧ p.diastolic_bp ≤ 140) →
     (45 ≤ p.heart_rate ∧ p.heart_rate ≤ 180) →
     ((34 : ℚ) ≤ p.body_temp ∧ p.body_temp ≤ 42) →
     ((70 : ℚ) ≤ p.blood_oxygen ∧ p.blood_oxygen ≤ 100) →
     ((1/2 : ℚ) ≤ p.blood_sugar ∧ p.blood_sugar ≤ 30) →
     (1 ≤ p.gestational_weeks ∧ p.gestational_weeks ≤ 42) →
     (∀ s, p.symptoms = some s → s.length ≤ 500) →
     validate_vitals p = .error (.adversarialInput p.systolic_bp p.diastolic_bp)) ∧
    (∀ v, validate_vitals p ≠ .ok v) := by
  constructor
  · intro h1 h2 h3 h4 h5 h6 h7 h8 h9
    have hsym : (match p.symptoms with | some s => 500 < s.length | none => false : Bool) = false := by
      cases hs : p.symptoms with
      | none => rfl
      | some s => simpa using Nat.not_lt.mpr (h9 s hs)
    simp only [validate_vitals]
    rw [if_neg (not_not_intro h1), if_neg (not_not_intro h2), if_neg (not_not_intro h3),
        if_neg (not_not_intro h4), if_neg (not_not_intro h5), if_neg (not_not_intro h6),
        if_neg (not_not_intro h7), if_neg (not_not_intro h8)]
    rw [if_neg (by simp [hsym]), if_pos hle]
  · intro v h
    simp only [validate_vitals] at h
    split_ifs at h <;> simp_all

/-- A payload with reversed blood pressure (80/90) and every field inside
its range. -/
def reversedBPPayload : RawPayload :=
  { extraKeys := [], age := 28, systolic_bp := 80, diastolic_bp := 90,
    heart_rate := 75, body_temp := 37, blood_oxygen := 98, blood_sugar := 11/2,
    gestational_weeks := 24, symptoms := none }

/-- A candidate `ClinicalVitals` value, used to instantiate the
never-constructed half of the amended C6. -/
def reversedBPPayloadVitals : ClinicalVitals :=
  { age := 28, systolic_bp := 80, diastolic_bp := 90, heart_rate := 75,
    body_temp := 37, blood_oxygen := 98, blood_sugar := 11/2,
    gestational_weeks := 24, symptoms := none }

/-- Witness for the amended C6 at `reversedBPPayload` (all ranges pass)
and, for the never-constructed half, at `reversedBPBadAgePayload`. -/
theorem C6_reversed_bp_rejected_witness :
    validate_vitals reversedBPPayload = .error (.adversarialInput 80 90) ∧
    validate_vitals reversedBPPayload ≠ .ok reversedBPPayloadVitals ∧
    validate_vitals reversedBPBadAgePayload ≠ .ok reversedBPPayloadVitals :=
  ⟨(C6_reversed_bp_rejected reversedBPPayload (by decide)).1
      (by decide) (by decide) (by decide) (by decide)
      (by norm_num [reversedBPPayload]) (by norm_num [reversedBPPayload])
      (by norm_num [reversedBPPayload]) (by decide)
      (by intro s hs; simp [reversedBPPayload] at hs),
   (C6_reversed_bp_rejected reversedBPPayload (by decide)).2 reversedBPPayloadVitals,
   (C6_reversed_bp_rejected reversedBPBadAgePayload (by decide)).2 reversedBPPayloadVitals⟩

/-- No rule block ever lowers the risk level: each is monotone in the
severity rank. -/
theorem rule_step_mono (f : ClinicalVitals → EvalSt → EvalSt)
    (hf : f ∈ ruleSteps) (v : ClinicalVitals) (st : EvalSt) :
    st.risk_level.rank ≤ (f v st).risk_level.rank := by
  obtain ⟨al, rl, bp⟩ := st
  fin_cases hf <;> cases rl <;>
    simp only [rule1_hypertension, rule2_hypoxia, rule3_tachycardia,
      rule4_hypoglycemia, rule5_hyperglycemia, rule6_hyperthermia,
      rule7_advanced_age, rule8_post_term] <;>
    split_ifs <;>
    simp_all [RiskLevel.rank]

/-- After the five critical-flag rules the risk level is still LOW or has
been set to CRITICAL — no intermediate level is possible there. -/
theorem risk_after_five (v : ClinicalVitals) :
    (rule5_hyperglycemia v (rule4_hypoglycemia v (rule3_tachycardia v
      (rule2_hypoxia v (rule1_hypertension v ⟨[], .LOW, false⟩))))).risk_level = .LOW ∨
    (rule5_hyperglycemia v (rule4_hypoglycemia v (rule3_tachycardia v
      (rule2_hypoxia v (rule1_hypertension v ⟨[], .LOW, false⟩))))).risk_level = .CRITICAL := by
  simp only [rule1_hypertension, rule2_hypoxia, rule3_tachycardia,
    rule4_hypoglycemia, rule5_hyperglycemia]
  split_ifs <;> simp_all

/-- Hyperthermia raises a LOW-or-CRITICAL level to at least HIGH. -/
theorem rule6_bound (v : ClinicalVitals) (st : EvalSt)
    (h : (77/2 : ℚ) < v.body_temp)
    (hst : st.risk_level = .LOW ∨ st.risk_level = .CRITICAL) :
    RiskLevel.HIGH.rank ≤ (rule6_hyperthermia v st).risk_level.rank := by
  rcases hst with h' | h' <;> simp [rule6_hyperthermia, h, h', RiskLevel.rank]

/-- Advanced maternal age leaves the level at least MEDIUM. -/
theorem rule7_bound (v : ClinicalVitals) (st : EvalSt) (h : 35 ≤ v.age) :
    RiskLevel.MEDIUM.rank ≤ (rule7_advanced_age v st).risk_level.rank := by
  cases hst : st.risk_level <;> simp [rule7_advanced_age, h, hst, RiskLevel.rank]

/-- Post-term pregnancy leaves the level at least MEDIUM. -/
theorem rule8_bound (v : ClinicalVitals) (st : EvalSt) (h : 40 < v.gestational_weeks) :
    RiskLevel.MEDIUM.rank ≤ (rule8_post_term v st).risk_level.rank := by
  cases hst : st.risk_level <;> simp [rule8_post_term, h, hst, RiskLevel.rank]

/-- `evaluate`'s risk level, written as the explicit composition of the
eight rule blocks. -/
theorem evaluate_risk_eq (v : ClinicalVitals) :
    (evaluate v).risk_level =
      (rule8_post_term v (rule7_advanced_age v (rule6_hyperthermia v
        (rule5_hyperglycemia v (rule4_hypoglycemia v (rule3_tachycardia v
          (rule2_hypoxia v (rule1_hypertension v ⟨[], .LOW, false⟩)))))))).risk_level := rfl

/-- **C8.** Within a single `evaluate` call, the risk level is
monotonically non-decreasing as successive rules are applied — no rule
block ever lowers the level — and for every validated vitals:
body temperature > 38.5 °C forces a final level of at least HIGH,
age ≥ 35 forces at least MEDIUM, and gestational weeks > 40 forces at
least MEDIUM (levels compared through the severity rank
LOW < MEDIUM < HIGH < CRITICAL). -/
theorem C8_risk_monotone_and_floors (v : ClinicalVitals) :
    (∀ f ∈ ruleSteps, ∀ st : EvalSt, st.risk_level.rank ≤ (f v st).risk_level.rank) ∧
    ((77/2 : ℚ) < v.body_temp → RiskLevel.HIGH.rank ≤ (evaluate v).risk_level.rank) ∧
    (35 ≤ v.age → RiskLevel.MEDIUM.rank ≤ (evaluate v).risk_level.rank) ∧
    (40 < v.gestational_weeks → RiskLevel.MEDIUM.rank ≤ (evaluate v).risk_level.rank) := by
  have h7m : rule7_advanced_age ∈ ruleSteps := by simp [ruleSteps]
  have h8m : rule8_post_term ∈ ruleSteps := by simp [ruleSteps]
  refine ⟨fun f hf st => rule_step_mono f hf v st, ?_, ?_, ?_⟩
  · intro h
    rw [evaluate_risk_eq]
    exact le_trans (le_trans (rule6_bound v _ h (risk_after_five v))
      (rule_step_mono _ h7m v _)) (rule_step_mono _ h8m v _)
  · intro h
    rw [evaluate_risk_eq]
    exact le_trans (rule7_bound v _ h) (rule_step_mono _ h8m v _)
  · intro h
    rw [evaluate_risk_eq]
    exact rule8_bound v _ h

/-- Vitals combining hyperthermia (39 °C), advanced age (36) and
post-term weeks (41), otherwise normal. -/
def boundsVitals : ClinicalVitals :=
  { age := 36, systolic_bp := 120, diastolic_bp := 80, heart_rate := 75,
    body_temp := 39, blood_oxygen := 98, blood_sugar := 11/2,
    gestational_weeks := 41, symptoms := none }

/-- Witness for C8 at `boundsVitals`, instantiating the monotonicity
conjunct at the tachycardia rule on the initial evaluation state. -/
theorem C8_risk_monotone_and_floors_witness :
    (EvalSt.risk_level ⟨[], .LOW, false⟩).rank ≤
      (rule3_tachycardia boundsVitals ⟨[], .LOW, false⟩).risk_level.rank ∧
    RiskLevel.HIGH.rank ≤ (evaluate boundsVitals).risk_level.rank ∧
    RiskLevel.MEDIUM.rank ≤ (evaluate boundsVitals).risk_level.rank ∧
    RiskLevel.MEDIUM.rank ≤ (evaluate boundsVitals).risk_level.rank :=
  ⟨(C8_risk_monotone_and_floors boundsVitals).1 rule3_tachycardia
      (by simp [ruleSteps]) ⟨[], .LOW, false⟩,
   (C8_risk_monotone_and_floors boundsVitals).2.1 (by norm_num [boundsVitals]),
   (C8_risk_monotone_and_floors boundsVitals).2.2.1 (by decide),
   (C8_risk_monotone_and_floors boundsVitals).2.2.2 (by decide)⟩

/-- Consecutive failing calls starting CLOSED drive the breaker to OPEN
exactly when the accumulated failure count reaches the threshold. -/
theorem failCalls_opens (ts : List ℚ) : ∀ cb : CircuitBreaker,
    cb.state = .CLOSED →
    cb.failure_count + ts.length = cb.failure_threshold →
    ts ≠ [] →
    (cb.failCalls ts).state = .OPEN := by
  induction ts with
  | nil => intro cb _ _ hne; cases hne rfl
  | cons t ts ih =>
    intro cb hstate hlen _
    by_cases hth : cb.failure_threshold ≤ cb.failure_count + 1
    · have hts : ts = [] := by
        have h0 : ts.length = 0 := by simp at hlen; omega
        exact List.length_eq_zero.mp h0
      subst hts
      have hopen : (cb.call t (Except.error () : Except Unit Unit)).1.state = .OPEN := by
        simp [CircuitBreaker.call, hstate, CircuitBreaker.invokePhase,
          CircuitBreaker.on_failure, CircuitBreaker.transition_to_open, hth]
      simpa [CircuitBreaker.failCalls] using hopen
    · have hstep : (cb.call t (Except.error () : Except Unit Unit)).1 =
          { cb with failure_count := cb.failure_count + 1, last_failure_time := t } := by
        simp [CircuitBreaker.call, hstate, CircuitBreaker.invokePhase,
          CircuitBreaker.on_failure, hth]
      have hts : ts ≠ [] := by
        intro h; subst h; simp at hlen; omega
      have hrec := ih { cb with failure_count := cb.failure_count + 1, last_failure_time := t }
        hstate (by simp at hlen ⊢; omega) hts
      simpa [CircuitBreaker.failCalls, hstep] using hrec

/-- **C4 counterexample.** At elapsed time exactly equal to
`timeout_seconds` (breaker OPEN, last failure at 0, timeout 60, call at
time 60) the code fails fast with `CircuitBreakerOpen` and does **not**
invoke `fn`, contradicting the claim that elapsed ≥ timeout transitions
to HALF_OPEN and invokes `fn`: the source requires strictly
`time.time() - last_failure_time > timeout_seconds`. -/
theorem C4_counterexample_boundary_elapsed_eq_timeout :
    (60 : ℚ) - (CircuitBreaker.mk .OPEN 5 0 0 5 60 3).last_failure_time =
      (CircuitBreaker.mk .OPEN 5 0 0 5 60 3).timeout_seconds ∧
    (CircuitBreaker.mk .OPEN 5 0 0 5 60 3).call 60 (Except.ok ()) =
      (CircuitBreaker.mk .OPEN 5 0 0 5 60 3, .breakerOpen, false) := by
  constructor
  · norm_num
  · norm_num [CircuitBreaker.call]

/-- **C4 (amended).** After exactly `failure_threshold` consecutive fn
failures while CLOSED the breaker is OPEN; while OPEN, a call with
elapsed time since the last failure **at most** `timeout_seconds` (in
particular any elapsed time strictly below it) fails fast with
`CircuitBreakerOpen` without invoking fn and leaves the breaker
unchanged; and whenever the elapsed time is **strictly greater** than
`timeout_seconds` (not merely ≥, as claimed), the call transitions the
breaker to HALF_OPEN first and then invokes fn. -/
theorem C4_breaker_open_and_halfopen (cb : CircuitBreaker) (ts : List ℚ)
    (now : ℚ) (r : Except Unit Unit) :
    (cb.state = .CLOSED → cb.failure_count + ts.length = cb.failure_threshold →
      ts ≠ [] → (cb.failCalls ts).state = .OPEN) ∧
    (cb.state = .OPEN → now - cb.last_failure_time ≤ cb.timeout_seconds →
      cb.call now r = (cb, .breakerOpen, false)) ∧
    (cb.state = .OPEN → cb.timeout_seconds < now - cb.last_failure_time →
      cb.call now r = cb.transition_to_half_open.invokePhase now r ∧
      (cb.call now r).2.2 = true) := by
  refine ⟨fun h1 h2 h3 => failCalls_opens ts cb h1 h2 h3, ?_, ?_⟩
  · intro hstate helapsed
    simp only [CircuitBreaker.call]
    rw [if_pos hstate, if_neg (not_lt.mpr helapsed)]
  · intro hstate helapsed
    have hcall : cb.call now r = cb.transition_to_half_open.invokePhase now r := by
      simp only [CircuitBreaker.call]
      rw [if_pos hstate, if_pos helapsed]
    refine ⟨hcall, ?_⟩
    rw [hcall]
    cases r <;> simp [CircuitBreaker.invokePhase]

/-- Witness for the amended C4: threshold 2 reached by two failed
submissions at times 1 and 2 opens the breaker; from OPEN (last failure
at 0, timeout 60) a call at time 30 fails fast unchanged, and a call at
time 61 goes through HALF_OPEN and invokes fn. -/
theorem C4_breaker_open_and_halfopen_witness :
    ((CircuitBreaker.init 2 60 3).failCalls [1, 2]).state = .OPEN ∧
    (CircuitBreaker.mk .OPEN 5 0 0 5 60 3).call 30 (Except.ok ()) =
      (CircuitBreaker.mk .OPEN 5 0 0 5 60 3, .breakerOpen, false) ∧
    ((CircuitBreaker.mk .OPEN 5 0 0 5 60 3).call 61 (Except.ok ()) =
      (CircuitBreaker.mk .OPEN 5 0 0 5 60 3).transition_to_half_open.invokePhase 61 (Except.ok ()) ∧
     ((CircuitBreaker.mk .OPEN 5 0 0 5 60 3).call 61 (Except.ok ())).2.2 = true) :=
  ⟨(C4_breaker_open_and_halfopen (CircuitBreaker.init 2 60 3) [1, 2] 0 (Except.ok ())).1
      rfl (by decide) (by decide),
   (C4_breaker_open_and_halfopen (CircuitBreaker.mk .OPEN 5 0 0 5 60 3) [] 30 (Except.ok ())).2.1
      rfl (by norm_num),
   (C4_breaker_open_and_halfopen (CircuitBreaker.mk .OPEN 5 0 0 5 60 3) [] 61 (Except.ok ())).2.2
      rfl (by norm_num)⟩

/-- **C5.** `resolve_hitl_case` succeeds iff the stored document's
`version_id` equals the caller's `expected_version`; on success it sets
`version_id` to `expected_version + 1` and all review fields in the same
atomic update, leaving the rest of the document untouched; on a mismatch
it reports the conflict (returns false) and leaves the stored document
entirely unchanged. Of two resolves against the same case with the same
`expected_version` (starting from a document at that version), exactly
the first succeeds and the loser changes nothing. -/
theorem C5_resolve_optimistic_lock (doc : DecisionDoc) (doctor1 doctor2 : String)
    (rl1 rl2 : RiskLevel) (n1 n2 : Option String) (expected : Int) (t1 t2 : ℚ) :
    ((resolve_hitl_case doc doctor1 rl1 n1 expected t1).2 = true ↔
      doc.version_id = expected) ∧
    (doc.version_id = expected →
      (resolve_hitl_case doc doctor1 rl1 n1 expected t1).1 =
        { version_id := expected + 1, review_status := .RESOLVED,
          final_risk_level := rl1, reviewed_by := some doctor1,
          reviewed_at := some t1, review_notes := n1, updated_at := t1,
          rest := doc.rest }) ∧
    (doc.version_id ≠ expected →
      (resolve_hitl_case doc doctor1 rl1 n1 expected t1).1 = doc ∧
      (resolve_hitl_case doc doctor1 rl1 n1 expected t1).2 = false) ∧
    (doc.version_id = expected →
      (resolve_hitl_case doc doctor1 rl1 n1 expected t1).2 = true ∧
      (resolve_hitl_case (resolve_hitl_case doc doctor1 rl1 n1 expected t1).1
          doctor2 rl2 n2 expected t2).2 = false ∧
      (resolve_hitl_case (resolve_hitl_case doc doctor1 rl1 n1 expected t1).1
          doctor2 rl2 n2 expected t2).1 =
        (resolve_hitl_case doc doctor1 rl1 n1 expected t1).1) := by
  have miss : ∀ (d : DecisionDoc) (dr : String) (rl : RiskLevel) (n : Option String)
      (t : ℚ), d.version_id ≠ expected →
      resolve_hitl_case d dr rl n expected t = (d, false) := by
    intro d dr rl n t hne
    simp [resolve_hitl_case, hne]
  refine ⟨?_, ?_, ?_, ?_⟩
  · constructor
    · intro h
      by_contra hne
      rw [miss doc doctor1 rl1 n1 t1 hne] at h
      exact Bool.false_ne_true h
    · intro h
      simp [resolve_hitl_case, h]
  · intro h
    simp [resolve_hitl_case, h]
  · intro h
    rw [miss doc doctor1 rl1 n1 t1 h]
    exact ⟨rfl, rfl⟩
  · intro h
    have hne : (resolve_hitl_case doc doctor1 rl1 n1 expected t1).1.version_id ≠ expected := by
      have hwin : (resolve_hitl_case doc doctor1 rl1 n1 expected t1).1.version_id =
          expected + 1 := by
        simp [resolve_hitl_case, h]
      rw [hwin]; omega
    rw [miss _ doctor2 rl2 n2 t2 hne]
    exact ⟨by simp [resolve_hitl_case, h], rfl, rfl⟩

/-- A pending HITL decision document at version 1. -/
def pendingDoc : DecisionDoc :=
  { version_id := 1, review_status := .PENDING, final_risk_level := .MEDIUM,
    reviewed_by := none, reviewed_at := none, review_notes := none,
    updated_at := 0, rest := [("client_sync_uuid", "u-1")] }

/-- Witness for C5: two resolves of `pendingDoc` with `expected_version`
1 — the first succeeds and bumps the version to 2, the second fails and
changes nothing. -/
theorem C5_resolve_optimistic_lock_witness :
    ((resolve_hitl_case pendingDoc "dr-a" .HIGH (some "confirmed") 1 10).2 = true ↔
      pendingDoc.version_id = 1) ∧
    ((resolve_hitl_case pendingDoc "dr-a" .HIGH (some "confirmed") 1 10).2 = true ∧
     (resolve_hitl_case (resolve_hitl_case pendingDoc "dr-a" .HIGH (some "confirmed") 1 10).1
        "dr-b" .LOW none 1 11).2 = false ∧
     (resolve_hitl_case (resolve_hitl_case pendingDoc "dr-a" .HIGH (some "confirmed") 1 10).1
        "dr-b" .LOW none 1 11).1 =
       (resolve_hitl_case pendingDoc "dr-a" .HIGH (some "confirmed") 1 10).1) :=
  ⟨(C5_resolve_optimistic_lock pendingDoc "dr-a" "dr-b" .HIGH .LOW
      (some "confirmed") none 1 10 11).1,
   (C5_resolve_optimistic_lock pendingDoc "dr-a" "dr-b" .HIGH .LOW
      (some "confirmed") none 1 10 11).2.2.2 (by decide)⟩

/-- **C9 (code behaviour at the claim's failing scenario).** Because
`submit_triage` constructs a fresh `CircuitBreaker` per request instead
of the module-level shared instance, the breaker consulted by **every**
submission whose single predictor call fails ends the request CLOSED
with failure count 1: failures never accumulate across submissions and
no sequence of failing submissions ever opens the breaker consulted by
the next one (whereas a single shared breaker, as the claim describes,
would open after `failure_threshold` accumulated failures). -/
theorem C9_per_request_breaker_never_accumulates (threshold : Nat)
    (timeout : ℚ) (halfOpen : Nat) (now : ℚ) (ts : List ℚ)
    (hth : 2 ≤ threshold) :
    ((submitRequestBreaker threshold timeout halfOpen now).state = .CLOSED ∧
     (submitRequestBreaker threshold timeout halfOpen now).failure_count = 1) ∧
    (ts.length = threshold → ts ≠ [] →
      ((CircuitBreaker.init threshold timeout halfOpen).failCalls ts).state = .OPEN) := by
  constructor
  · have hth1 : ¬ threshold ≤ 0 + 1 := by omega
    constructor <;>
      simp [submitRequestBreaker, CircuitBreaker.call, CircuitBreaker.init,
        CircuitBreaker.invokePhase, CircuitBreaker.on_failure, hth1]
  · intro hlen hne
    exact failCalls_opens ts (CircuitBreaker.init threshold timeout halfOpen)
      rfl (by simp [CircuitBreaker.init, hlen]) hne

/-- Witness for C9 at the production default threshold 5: a submission's
fresh breaker stays CLOSED at failure count 1, while five accumulated
failures on one shared breaker would open it. -/
theorem C9_per_request_breaker_never_accumulates_witness :
    ((submitRequestBreaker 5 60 3 7).state = .CLOSED ∧
     (submitRequestBreaker 5 60 3 7).failure_count = 1) ∧
    ((CircuitBreaker.init 5 60 3).failCalls [1, 2, 3, 4, 5]).state = .OPEN :=
  ⟨(C9_per_request_breaker_never_accumulates 5 60 3 7 [1, 2, 3, 4, 5] (by decide)).1,
   (C9_per_request_breaker_never_accumulates 5 60 3 7 [1, 2, 3, 4, 5] (by decide)).2
      (by decide) (by decide)⟩

end MomWatch
